import Mathlib

/-!
# RagScore — verification of the evaluation/judging pipeline

A shallow embedding of the RagScore repository's evaluation pipeline
(`src/ragscore/evaluation.py`, `src/ragscore/assessment.py`,
`src/ragscore/llm.py`, `src/ragscore/advanced_evaluator.py`) together with
proofs and refutations of the specified properties.

Conventions of the embedding:
* Python JSON values (`json.loads` results) are the inductive `JSON`;
  Python `dict`s appearing in them are association lists with last-write-wins
  lookup.
* Python numbers are modelled with `ℚ` (for JSON numbers and millisecond
  values) and `Int` (for scores produced through `int(...)`).
* Fallible Python code is modelled in `Except PyExc`; a `try/except` block
  becomes a `match` on the `Except` value of the guarded code.
* External collaborators (the HTTP transport, the LLM completion provider)
  are parameters: an item's transport behaviour is an `HttpOutcome`, a
  provider call's behaviour is an `Except PyExc String` (the returned
  message content, or the exception it raises).
-/

set_option autoImplicit false

namespace RagScore

/-- A decoded JSON value, as produced by Python's `json.loads`.
Objects keep their key/value pairs in decode order; lookups take the last
binding of a key, matching Python's duplicate-key behaviour. -/
inductive JSON where
  | null
  | bool (b : Bool)
  | num (q : ℚ)
  | str (s : String)
  | arr (elems : List JSON)
  | obj (fields : List (String × JSON))

/-- Python `dict.get(k)` on an association list: the last binding wins. -/
def dictGet (kvs : List (String × JSON)) (k : String) : Option JSON :=
  kvs.foldl (fun acc p => if p.1 = k then some p.2 else acc) none

/-- Python `k in d` membership test. -/
def dictHas (kvs : List (String × JSON)) (k : String) : Bool :=
  kvs.any (fun p => p.1 = k)

/-- Python truthiness of a decoded JSON value. -/
def truthy : JSON → Bool
  | .null => false
  | .bool b => b
  | .num q => q ≠ 0
  | .str s => s ≠ ""
  | .arr elems => !elems.isEmpty
  | .obj fields => !fields.isEmpty

/-- Truthiness of a possibly-absent value (`dict.get` returning `None`). -/
def optTruthy : Option JSON → Bool
  | none => false
  | some v => truthy v

/-- The characters stripped by Python's `str.strip()` (ASCII whitespace). -/
def isPySpace (c : Char) : Bool :=
  c = ' ' || c = '\t' || c = '\n' || c = '\x0d' || c = '\x0b' || c = '\x0c'

/-- Python `str.lstrip()` on a character list. -/
def pyLStrip (cs : List Char) : List Char := cs.dropWhile isPySpace

/-- Python `str.strip()`. -/
def pyStrip (s : String) : String :=
  String.mk (((pyLStrip s.toList).reverse.dropWhile isPySpace).reverse)

/-- Python `s[:n]` for a nonnegative `n`. -/
def pyTake (n : Nat) (s : String) : String := String.mk (s.toList.take n)

/-- Python exceptions relevant to the pipeline (all subclasses of
`Exception`, so all are caught by a bare `except Exception`). -/
inductive PyExc where
  | valueError (msg : String)
  | typeError (msg : String)
  | keyError (key : String)
  | attributeError (msg : String)
  | jsonDecodeError (msg : String)
  | timeout
  | requestException (msg : String)
  | other (msg : String)
deriving DecidableEq, Repr

/-- Python `str(e)` for the exceptions above (approximated where the exact
rendering carries position data; no claim depends on those renderings). -/
def pyExcMsg : PyExc → String
  | .valueError m => m
  | .typeError m => m
  | .keyError k => "'" ++ k ++ "'"
  | .attributeError m => m
  | .jsonDecodeError m => m
  | .timeout => ""
  | .requestException m => m
  | .other m => m

/-- Truncation of a rational toward zero, as Python's `int(float)`. -/
def ratTrunc (q : ℚ) : Int := q.num.tdiv q.den

/-- Python `int(str)`: strip whitespace, then an optional sign and a
nonempty digit run (underscore grouping is not modelled). -/
def pyIntOfString (s : String) : Except PyExc Int :=
  let cs := (pyStrip s).toList
  let (neg, ds) : Bool × List Char :=
    match cs with
    | '-' :: rest => (true, rest)
    | '+' :: rest => (false, rest)
    | rest => (false, rest)
  if ds ≠ [] ∧ ds.all (·.isDigit) then
    let n : Nat := ds.foldl (fun acc c => acc * 10 + (c.toNat - '0'.toNat)) 0
    .ok (if neg then -(n : Int) else (n : Int))
  else
    .error (.valueError ("invalid literal for int() with base 10: " ++ s))

/-- Python `int(x)` on a decoded JSON value. -/
def pyInt : JSON → Except PyExc Int
  | .num q => .ok (ratTrunc q)
  | .str s => pyIntOfString s
  | .bool b => .ok (if b then 1 else 0)
  | .null => .error (.typeError "int() argument must be a string, a bytes-like object or a real number, not 'NoneType'")
  | .arr _ => .error (.typeError "int() argument must be a string, a bytes-like object or a real number, not 'list'")
  | .obj _ => .error (.typeError "int() argument must be a string, a bytes-like object or a real number, not 'dict'")

/-! ## `json.loads`

A recursive-descent decoder for the JSON accepted by Python's `json.loads`
in its default strict mode. `NaN`/`Infinity` literals and surrogate-pair
combination are not modelled. Failure is a `JSONDecodeError`. -/

/-- JSON insignificant whitespace. -/
def isJsonWs (c : Char) : Bool := c = ' ' || c = '\t' || c = '\n' || c = '\x0d'

def skipWs (cs : List Char) : List Char := cs.dropWhile isJsonWs

/-- Decode the body of a JSON string literal after its opening quote.
Returns the decoded characters and the input after the closing quote. -/
def parseStringBody (fuel : Nat) (cs : List Char) : Option (List Char × List Char) :=
  match fuel with
  | 0 => none
  | fuel + 1 =>
    match cs with
    | [] => none
    | '"' :: rest => some ([], rest)
    | '\\' :: e :: rest =>
      let dec : Option (Char × List Char) :=
        match e with
        | '"' => some ('"', rest)
        | '\\' => some ('\\', rest)
        | '/' => some ('/', rest)
        | 'b' => some ('\x08', rest)
        | 'f' => some ('\x0c', rest)
        | 'n' => some ('\n', rest)
        | 'r' => some ('\x0d', rest)
        | 't' => some ('\t', rest)
        | 'u' =>
          match rest with
          | h1 :: h2 :: h3 :: h4 :: rest' =>
            let isHex : Char → Bool := fun c =>
              c.isDigit || ('a' ≤ c && c ≤ 'f') || ('A' ≤ c && c ≤ 'F')
            if isHex h1 && isHex h2 && isHex h3 && isHex h4 then
              let hv : Char → Nat := fun c =>
                if c.isDigit then c.toNat - '0'.toNat
                else if 'a' ≤ c ∧ c ≤ 'f' then c.toNat - 'a'.toNat + 10
                else c.toNat - 'A'.toNat + 10
              some (Char.ofNat (((hv h1 * 16 + hv h2) * 16 + hv h3) * 16 + hv h4), rest')
            else none
          | _ => none
        | _ => none
      match dec with
      | some (c, rest') =>
        match parseStringBody fuel rest' with
        | some (body, after) => some (c :: body, after)
        | none => none
      | none => none
    | c :: rest =>
      if c.toNat < 0x20 then none
      else
        match parseStringBody fuel rest with
        | some (body, after) => some (c :: body, after)
        | none => none

/-- Decode a JSON number at the head of the input (grammar
`-? int frac? exp?`), returning its value and the rest of the input. -/
def parseNumber (cs : List Char) : Option (ℚ × List Char) :=
  let (neg, cs₁) : Bool × List Char :=
    match cs with
    | '-' :: rest => (true, rest)
    | rest => (false, rest)
  let intPart := cs₁.takeWhile (·.isDigit)
  let cs₂ := cs₁.dropWhile (·.isDigit)
  let intOk : Bool :=
    match intPart with
    | [] => false
    | ['0'] => true
    | '0' :: _ => false
    | _ => true
  if !intOk then none
  else
    let digitsVal : List Char → Nat :=
      fun ds => ds.foldl (fun acc c => acc * 10 + (c.toNat - '0'.toNat)) 0
    let (fracPart, cs₃) : List Char × List Char :=
      match cs₂ with
      | '.' :: rest =>
        (rest.takeWhile (·.isDigit), rest.dropWhile (·.isDigit))
      | rest => ([], rest)
    let fracBad : Bool :=
      match cs₂ with
      | '.' :: _ => fracPart.isEmpty
      | _ => false
    if fracBad then none
    else
      let expParse : Option (Int × List Char) :=
        match cs₃ with
        | e :: rest =>
          if e = 'e' ∨ e = 'E' then
            let (esign, rest₁) : Int × List Char :=
              match rest with
              | '-' :: r => (-1, r)
              | '+' :: r => (1, r)
              | r => (1, r)
            let eds := rest₁.takeWhile (·.isDigit)
            if eds.isEmpty then none
            else some (esign * (digitsVal eds : Int), rest₁.dropWhile (·.isDigit))
          else some (0, cs₃)
        | [] => some (0, cs₃)
      match expParse with
      | none => none
      | some (ex, rest) =>
        let mantissa : Int := (digitsVal intPart * 10 ^ fracPart.length + digitsVal fracPart : Nat)
        let mantissa := if neg then -mantissa else mantissa
        let scale : Int := ex - fracPart.length
        let value : ℚ :=
          if 0 ≤ scale then mkRat (mantissa * (10 : Int) ^ scale.toNat) 1
          else mkRat mantissa ((10 : Nat) ^ (-scale).toNat)
        some (value, rest)

/-- Whether the input starts with the given literal word. -/
def stripPrefixChars (word : List Char) (cs : List Char) : Option (List Char) :=
  match word, cs with
  | [], rest => some rest
  | w :: ws, c :: rest => if c = w then stripPrefixChars ws rest else none
  | _ :: _, [] => none

mutual

/-- Decode one JSON value at the head of the input. -/
def parseValue (fuel : Nat) (cs : List Char) : Option (JSON × List Char) :=
  match fuel with
  | 0 => none
  | fuel + 1 =>
    let cs := skipWs cs
    match cs with
    | [] => none
    | c :: _ =>
      if c = 'n' then
        (stripPrefixChars ['n','u','l','l'] cs).map (fun rest => (.null, rest))
      else if c = 't' then
        (stripPrefixChars ['t','r','u','e'] cs).map (fun rest => (.bool true, rest))
      else if c = 'f' then
        (stripPrefixChars ['f','a','l','s','e'] cs).map (fun rest => (.bool false, rest))
      else if c = '"' then
        match parseStringBody cs.length cs.tail with
        | some (body, rest) => some (.str (String.mk body), rest)
        | none => none
      else if c = '[' then
        match skipWs cs.tail with
        | ']' :: rest => some (.arr [], rest)
        | tl => (parseElems fuel tl).map (fun (es, rest) => (.arr es, rest))
      else if c = '{' then
        match skipWs cs.tail with
        | '}' :: rest => some (.obj [], rest)
        | tl => (parseMembers fuel tl).map (fun (ms, rest) => (.obj ms, rest))
      else if c = '-' ∨ c.isDigit then
        (parseNumber cs).map (fun (q, rest) => (.num q, rest))
      else none

/-- Decode the elements of a nonempty JSON array, up to and including the
closing bracket. -/
def parseElems (fuel : Nat) (cs : List Char) : Option (List JSON × List Char) :=
  match fuel with
  | 0 => none
  | fuel + 1 =>
    match parseValue fuel cs with
    | none => none
    | some (v, rest) =>
      match skipWs rest with
      | ',' :: rest' =>
        (parseElems fuel rest').map (fun (es, after) => (v :: es, after))
      | ']' :: rest' => some ([v], rest')
      | _ => none

/-- Decode the members of a nonempty JSON object, up to and including the
closing brace. -/
def parseMembers (fuel : Nat) (cs : List Char) : Option (List (String × JSON) × List Char) :=
  match fuel with
  | 0 => none
  | fuel + 1 =>
    match skipWs cs with
    | '"' :: tl =>
      match parseStringBody tl.length tl with
      | none => none
      | some (key, rest) =>
        match skipWs rest with
        | ':' :: rest' =>
          match parseValue fuel rest' with
          | none => none
          | some (v, rest'') =>
            match skipWs rest'' with
            | ',' :: rest''' =>
              (parseMembers fuel rest''').map
                (fun (ms, after) => ((String.mk key, v) :: ms, after))
            | '}' :: rest''' => some ([(String.mk key, v)], rest''')
            | _ => none
        | _ => none
    | _ => none

end

/-- Python `json.loads`: decode a full document, requiring only whitespace
after the value; any failure is a `JSONDecodeError`. -/
def json_loads (s : String) : Except PyExc JSON :=
  match parseValue (s.length + 1) s.toList with
  | some (v, rest) =>
    if skipWs rest = [] then .ok v
    else .error (.jsonDecodeError "Extra data")
  | none => .error (.jsonDecodeError "Expecting value")

/-! ## `safe_json_parse` (`src/ragscore/llm.py`)

The staged repair-and-decode pipeline for malformed LLM output. -/

/-- The character class `[\x00-\x1f]` of the control-character cleanup. -/
def isCtrl (c : Char) : Bool := c.toNat ≤ 0x1f

/-- `re.sub(r"[\x00-\x1f]+", " ", raw)`: each maximal run of control
characters becomes a single space. The flag records whether the previous
character belonged to a run. -/
def cleanControlAux : Bool → List Char → List Char
  | _, [] => []
  | prevCtrl, c :: rest =>
    if isCtrl c then
      if prevCtrl then cleanControlAux true rest
      else ' ' :: cleanControlAux true rest
    else c :: cleanControlAux false rest

def cleanControl (s : String) : String := String.mk (cleanControlAux false s.toList)

/-- Appending the missing closing braces and brackets for truncated JSON:
the two `if cleaned.count(...) > cleaned.count(...)` blocks. -/
def completeBrackets (s : String) : String :=
  let cs := s.toList
  let s₁ :=
    if cs.count '{' > cs.count '}' then
      s ++ String.mk (List.replicate (cs.count '{' - cs.count '}') '}')
    else s
  let cs₁ := s₁.toList
  if cs₁.count '[' > cs₁.count ']' then
    s₁ ++ String.mk (List.replicate (cs₁.count '[' - cs₁.count ']') ']')
  else s₁

/-- The character walk of `_fix_inner_quotes`: a closing quote is one whose
next non-whitespace character is a structural delimiter (or end of text);
any other quote inside a string is escaped. -/
def fixInnerQuotesAux : List Char → Bool → Bool → List Char
  | [], _, _ => []
  | c :: rest, inString, escapeNext =>
    if escapeNext then c :: fixInnerQuotesAux rest inString false
    else if c = '\\' then c :: fixInnerQuotesAux rest inString true
    else if c = '"' then
      if !inString then c :: fixInnerQuotesAux rest true false
      else
        match pyLStrip rest with
        | [] => c :: fixInnerQuotesAux rest false false
        | d :: _ =>
          if d = ',' ∨ d = '}' ∨ d = ']' ∨ d = ':' then
            c :: fixInnerQuotesAux rest false false
          else
            '\\' :: '"' :: fixInnerQuotesAux rest inString false
    else c :: fixInnerQuotesAux rest inString false

def fixInnerQuotes (s : String) : String := String.mk (fixInnerQuotesAux s.toList false false)

/-- The whitespace class `\s` of the repair regexes (ASCII part). -/
def isReSpace (c : Char) : Bool :=
  c = ' ' || c = '\t' || c = '\n' || c = '\x0d' || c = '\x0c' || c = '\x0b'

/-- `re.sub(r'("\s*\{)', r'", \{', ...)`: every quote whose next
non-whitespace character is an opening brace is replaced, together with the
whitespace and the brace, by the literal replacement text `", \{` (Python
keeps the unknown escape `\{` as the two characters backslash, brace).
The fuel is at least the list length, and each step consumes at least one
character. -/
def braceFixSubAux : Nat → List Char → List Char
  | 0, _ => []
  | _ + 1, [] => []
  | fuel + 1, c :: rest =>
    if c = '"' ∧ (rest.dropWhile isReSpace).head? = some '{' then
      '"' :: ',' :: ' ' :: '\\' :: '{' :: braceFixSubAux fuel ((rest.dropWhile isReSpace).tail)
    else c :: braceFixSubAux fuel rest

def braceFixSub (cs : List Char) : List Char := braceFixSubAux cs.length cs

/-- `re.sub(r'(\})(\s*")', r"\1, \2", ...)`: between a closing brace and a
following (possibly whitespace-separated) quote, insert `", "` after the
brace, keeping the whitespace. -/
def commaFixSubAux : Nat → List Char → List Char
  | 0, _ => []
  | _ + 1, [] => []
  | fuel + 1, c :: rest =>
    if c = '}' ∧ (rest.dropWhile isReSpace).head? = some '"' then
      '}' :: ',' :: ' ' ::
        (rest.takeWhile isReSpace ++ '"' :: commaFixSubAux fuel ((rest.dropWhile isReSpace).tail))
    else c :: commaFixSubAux fuel rest

def commaFixSub (cs : List Char) : List Char := commaFixSubAux cs.length cs

/-- The comma-repair fallback stage of `safe_json_parse`. -/
def repairCommas (s : String) : String :=
  String.mk (commaFixSub (braceFixSub s.toList))

/-- `safe_json_parse` (`llm.py:7-75`). Stages: empty input short-circuit;
control-character cleanup and bracket completion; direct decode; decode
after inner-quote escaping; decode after comma repair; `{}` on total
failure. The first two decode stages catch only `JSONDecodeError`; the last
catches every exception. -/
def safe_json_parse (raw : String) : Except PyExc JSON :=
  if raw = "" then .ok (.obj [])
  else
    let cleaned := completeBrackets (cleanControl raw)
    match json_loads cleaned with
    | .ok v => .ok v
    | .error (.jsonDecodeError _) =>
      match json_loads (fixInnerQuotes cleaned) with
      | .ok v => .ok v
      | .error (.jsonDecodeError _) =>
        match json_loads (repairCommas cleaned) with
        | .ok v => .ok v
        | .error _ => .ok (.obj [])
      | .error e => .error e
    | .error e => .error e

/-! ## `RAGEndpointClient._parse_answer` (`src/ragscore/assessment.py:129-159`) -/

/-- A candidate accepted by the extraction's final
`next((c for c in candidates if isinstance(c, str) and c.strip()), None)`:
a string with non-whitespace content. -/
def isNonBlankStr : Option JSON → Bool
  | some (.str s) => pyStrip s ≠ ""
  | _ => false

/-- The first accepted candidate, or `""` (`return answer or ""`). -/
def firstNonBlankStr (cands : List (Option JSON)) : String :=
  match cands.find? isNonBlankStr with
  | some (some (.str s)) => s
  | _ => ""

/-- The `Try nested data object` step of `_parse_answer`
(assessment.py:139-147): `data = res_json.get("data") or {}`, and when that
is a dict, append its `answer/response/result` fields to the candidates. -/
def dataStep (kvs : List (String × JSON)) (candidates : List (Option JSON)) :
    List (Option JSON) :=
  let data := match dictGet kvs "data" with
    | some v => if truthy v then v else .obj []
    | none => .obj []
  match data with
  | .obj dkvs =>
    candidates ++ [dictGet dkvs "answer", dictGet dkvs "response", dictGet dkvs "result"]
  | _ => candidates

/-- The `Try OpenAI-style choices format` step of `_parse_answer`
(assessment.py:149-156): probe `choices[0].message.content` when `choices`
is a nonempty list, or else a top-level `output_text` field. A `.get` on a
non-dict `choices[0]` or truthy non-dict `message` raises `AttributeError`. -/
def choicesStep (kvs : List (String × JSON)) (candidates : List (Option JSON)) :
    Except PyExc (List (Option JSON)) :=
  match dictGet kvs "choices" with
  | some (.arr (c0 :: _)) =>
    match c0 with
    | .obj ckvs =>
      let msg := match dictGet ckvs "message" with
        | some v => if truthy v then v else .obj []
        | none => .obj []
      match msg with
      | .obj mkvs => .ok (candidates ++ [dictGet mkvs "content"])
      | _ => .error (.attributeError "no attribute get")
    | _ => .error (.attributeError "no attribute get")
  | _ =>
    if dictHas kvs "output_text" then .ok (candidates ++ [dictGet kvs "output_text"])
    else .ok candidates

/-- `_parse_answer`. Both fallback steps are guarded by
`if not any(candidates)`; the receiver of a `.get` call must be a dict,
otherwise the call raises `AttributeError` (caught further up in `query`). -/
def parse_answer (res_json : JSON) : Except PyExc String :=
  match res_json with
  | .obj kvs =>
    let candidates := [dictGet kvs "answer", dictGet kvs "response",
                       dictGet kvs "result", dictGet kvs "msg"]
    let candidates :=
      if candidates.any optTruthy then candidates
      else dataStep kvs candidates
    let withChoices : Except PyExc (List (Option JSON)) :=
      if candidates.any optTruthy then .ok candidates
      else choicesStep kvs candidates
    withChoices.map firstNonBlankStr
  | _ => .error (.attributeError "no attribute get")

/-- The extraction order exactly as the specification words it: top-level
`answer/response/result/msg`; the same field names under a nested `data`
object; `choices[0].message.content`; a top-level `output_text` field — one
flat priority list whose first non-empty-string member wins, with `""`
otherwise. (This is the claimed behaviour, kept for comparison with
`parse_answer`.) -/
def parse_answer_claimed (res_json : JSON) : String :=
  match res_json with
  | .obj kvs =>
    let dataCands : List (Option JSON) :=
      match dictGet kvs "data" with
      | some (.obj dkvs) => [dictGet dkvs "answer", dictGet dkvs "response",
                             dictGet dkvs "result", dictGet dkvs "msg"]
      | _ => []
    let choiceCand : List (Option JSON) :=
      match dictGet kvs "choices" with
      | some (.arr (.obj ckvs :: _)) =>
        match dictGet ckvs "message" with
        | some (.obj mkvs) => [dictGet mkvs "content"]
        | _ => []
      | _ => []
    let cands := [dictGet kvs "answer", dictGet kvs "response", dictGet kvs "result",
                  dictGet kvs "msg"] ++ dataCands ++ choiceCand ++ [dictGet kvs "output_text"]
    match cands.find? (fun c => match c with | some (.str s) => s ≠ "" | _ => false) with
    | some (some (.str s)) => s
    | _ => ""
  | _ => ""

/-- Amended description, first tier: the four top-level fields. -/
def tierTop (kvs : List (String × JSON)) : List (Option JSON) :=
  [dictGet kvs "answer", dictGet kvs "response", dictGet kvs "result", dictGet kvs "msg"]

/-- Amended description, second tier: `answer/response/result` (no `msg`)
under a `data` field that holds a truthy object; otherwise no candidates. -/
def tierData (kvs : List (String × JSON)) : List (Option JSON) :=
  match dictGet kvs "data" with
  | some (.obj dkvs) =>
    if truthy (.obj dkvs) then
      [dictGet dkvs "answer", dictGet dkvs "response", dictGet dkvs "result"]
    else []
  | _ => []

/-- Amended description, third tier: `choices[0].message.content` when
`choices` is a nonempty list (raising `AttributeError` when `choices[0]` or
its truthy `message` is not an object), or else a top-level `output_text`
field when present. -/
def tierChoices (kvs : List (String × JSON)) : Except PyExc (List (Option JSON)) :=
  match dictGet kvs "choices" with
  | some (.arr (c0 :: _)) =>
    match c0 with
    | .obj ckvs =>
      let msg := match dictGet ckvs "message" with
        | some v => if truthy v then v else .obj []
        | none => .obj []
      match msg with
      | .obj mkvs => .ok [dictGet mkvs "content"]
      | _ => .error (.attributeError "no attribute get")
    | _ => .error (.attributeError "no attribute get")
  | _ =>
    if dictHas kvs "output_text" then .ok [dictGet kvs "output_text"]
    else .ok []

/-- The amended extraction order: strictly tiered, each later tier reached
only when every earlier candidate is falsy, and a candidate matches only
when it is a string with non-whitespace content. -/
def parse_answer_tiered (res_json : JSON) : Except PyExc String :=
  match res_json with
  | .obj kvs =>
    if (tierTop kvs).any optTruthy then .ok (firstNonBlankStr (tierTop kvs))
    else if (tierData kvs).any optTruthy then .ok (firstNonBlankStr (tierData kvs))
    else (tierChoices kvs).map firstNonBlankStr
  | _ => .error (.attributeError "no attribute get")

/-! ## `RAGEndpointClient.query` (`src/ragscore/assessment.py:161-218`)

The HTTP transport is a collaborator; its behaviour on one request is an
`HttpOutcome`. Streaming and non-streaming responses both end in one body
string, so the outcome carries the concatenated body. The elapsed
milliseconds are an input of the model (the code reads a monotone wall
clock at slightly different points per branch; all readings are the same
nonnegative quantity here). -/

/-- What the transport stack does for one request: `session.post` plus
`raise_for_status` and body reading. The exceptions of the first three
outcomes are `requests.exceptions.Timeout`, any other
`requests.exceptions.RequestException` (HTTP errors after exhausted
retries included), and any other `Exception`. -/
inductive HttpOutcome where
  | timeout
  | requestError (msg : String)
  | otherError (msg : String)
  | body (s : String)

/-- The `try` block of `query`: obtain the body, reject a blank body,
decode it, and extract the answer. Exceptions escape to the handlers. -/
def queryInner (o : HttpOutcome) (elapsed : ℚ) :
    Except PyExc (String × JSON × ℚ) :=
  match o with
  | .timeout => .error .timeout
  | .requestError m => .error (.requestException m)
  | .otherError m => .error (.other m)
  | .body s =>
    if s = "" ∨ pyStrip s = "" then
      .ok ("", .obj [("error", .str "Empty response body")], elapsed)
    else
      match json_loads s with
      | .error (.jsonDecodeError m) =>
        .ok ("", .obj [("error", .str ("JSON parse error: " ++ m)),
                       ("body_preview", .str (pyTake 500 s))], elapsed)
      | .error e => .error e
      | .ok v =>
        match parse_answer v with
        | .ok answer => .ok (answer, v, elapsed)
        | .error e => .error e

/-- `query`: the `try` block with its three `except` clauses
(`Timeout`, `RequestException`, `Exception`), each converting the failure
into an `("", {"error": ...}, elapsed)` triple. Total by construction:
every `PyExc` is an `Exception`, so the last handler catches everything. -/
def query (o : HttpOutcome) (elapsed : ℚ) : String × JSON × ℚ :=
  match queryInner o elapsed with
  | .ok r => r
  | .error .timeout => ("", .obj [("error", .str "Request timeout")], elapsed)
  | .error (.requestException m) =>
    ("", .obj [("error", .str ("HTTP error: " ++ m))], elapsed)
  | .error e =>
    ("", .obj [("error", .str ("Unexpected error: " ++ pyExcMsg e))], elapsed)

/-! ## `LLMEvaluator.evaluate` (`src/ragscore/assessment.py:246-336`)

The DashScope completion call is a collaborator: its behaviour is an
`Except PyExc String` carrying the message content it returns (errors
cover network failures, missing keys in `response.output`, and every other
exception the `try` block can see before `json.loads` runs). -/

/-- The validated three-dimension score object. `reasoning` is whatever
JSON value the provider put there (Python does not coerce it). -/
structure EvalScores where
  accuracy_score : Int
  relevance_score : Int
  completeness_score : Int
  reasoning : JSON

/-- `result[key] = max(0, min(100, int(result[key])))` with the
`if key not in result: result[key] = 50` default. -/
def clampScoreKey (kvs : List (String × JSON)) (k : String) : Except PyExc Int :=
  match dictGet kvs k with
  | none => .ok 50
  | some v => (pyInt v).map (fun n => max 0 (min 100 n))

/-- The body of `LLMEvaluator.evaluate`'s `try` block after the provider
call: decode the content and validate/clamp the three scores. A non-dict
decode makes the key assignments raise (caught one level up). -/
def validateScores (content : String) : Except PyExc EvalScores := do
  let j ← json_loads content
  match j with
  | .obj kvs =>
    let a ← clampScoreKey kvs "accuracy_score"
    let r ← clampScoreKey kvs "relevance_score"
    let c ← clampScoreKey kvs "completeness_score"
    let reasoning := (dictGet kvs "reasoning").getD (.str "No reasoning provided")
    .ok ⟨a, r, c, reasoning⟩
  | _ => .error (.typeError "object does not support item assignment")

/-- `LLMEvaluator.evaluate`. The returned flag records whether the
completion provider was called: the two degenerate-input short circuits
return before any LLM call. -/
def llmEvaluate (question expected_answer target_response : String)
    (provider : Except PyExc String) : EvalScores × Bool :=
  if target_response = "" ∨ pyStrip target_response = "" then
    (⟨0, 0, 0, .str "Target response is empty"⟩, false)
  else if expected_answer = "" ∨ pyStrip expected_answer = "" then
    (⟨50, 50, 50, .str "No expected answer provided for comparison"⟩, false)
  else
    match (do let content ← provider; validateScores content : Except PyExc EvalScores) with
    | .ok r => (r, true)
    | .error e =>
      (⟨50, 50, 50, .str ("Evaluation error: " ++ pyExcMsg e)⟩, true)

/-! ## `RAGAssessment` (`src/ragscore/assessment.py:339-450`) -/

/-- A generated QA pair, as `assess_single` reads it. -/
structure QAPair where
  id : String
  question : String
  answer : String

/-- One row of the assessment report. -/
structure AssessmentResult where
  qa_id : String
  question : String
  expected_answer : String
  target_response : String
  accuracy_score : Int
  relevance_score : Int
  completeness_score : Int
  overall_score : ℚ
  evaluation_reasoning : JSON
  response_time_ms : ℚ
  error : Option JSON
  raw_response : JSON

/-- Python `x or default` for a possibly-absent value. -/
def pyOr (v : Option JSON) (default : JSON) : JSON :=
  match v with
  | some x => if truthy x then x else default
  | none => default

/-- `RAGAssessment.assess_single`. Returns the record together with a flag
recording whether the completion provider was called (the error branch
builds its zero-score result without consulting the evaluator, and the
evaluator itself short-circuits degenerate inputs). -/
def assess_single (qa : QAPair) (o : HttpOutcome) (elapsed : ℚ)
    (provider : Except PyExc String) : AssessmentResult × Bool :=
  let (target_response, raw_response, response_time) := query o elapsed
  let error : Option JSON :=
    match raw_response with
    | .obj kvs => dictGet kvs "error"
    | _ => none
  let (scores, llmCalled) : EvalScores × Bool :=
    if optTruthy error ∨ target_response = "" then
      (⟨0, 0, 0, pyOr error (.str "Empty response")⟩, false)
    else
      llmEvaluate qa.question qa.answer target_response provider
  let overall_score : ℚ :=
    ((scores.accuracy_score : ℚ) + (scores.relevance_score : ℚ)
      + (scores.completeness_score : ℚ)) / 3
  ({ qa_id := qa.id
     question := qa.question
     expected_answer := qa.answer
     target_response := target_response
     accuracy_score := scores.accuracy_score
     relevance_score := scores.relevance_score
     completeness_score := scores.completeness_score
     overall_score := overall_score
     evaluation_reasoning := scores.reasoning
     response_time_ms := response_time
     error := error
     raw_response := raw_response }, llmCalled)

/-- `RAGAssessment.run_assessment`'s collection loop: one
`assess_single` per QA pair, appended in order (progress bar and
rate-limit sleep are presentation only). The per-item transport and
provider behaviours ride along with each pair. -/
def run_assessment (items : List (QAPair × HttpOutcome × ℚ × Except PyExc String)) :
    List AssessmentResult :=
  items.map (fun it => (assess_single it.1 it.2.1 it.2.2.1 it.2.2.2).1)

/-! ## The judge pipeline (`src/ragscore/evaluation.py`)

The endpoint client's behaviour per item is an `Except PyExc String`
(`RAGClient.query` either returns an answer string or raises), and the
judge provider's behaviour per item is an `Except PyExc String` (the
content of `provider.agenerate(...)`, or the exception it raises). -/

/-- A golden QA pair as `_judge_single`/`process_qa` read it
(`qa.get("question", "")`, `qa.get("answer", "")`, `qa.get("id", "unknown")`). -/
structure GoldenQA where
  id : String
  question : String
  answer : String

/-- One judged record (`EvaluationResult`, evaluation.py:28-43). `reason`
is stored as the JSON value the judge returned (Python does not coerce
it); the error path stores a string. -/
structure EvaluationResult where
  id : String
  question : String
  golden_answer : String
  rag_answer : String
  score : Int
  reason : JSON
  is_correct : Bool
  correctness : Option Int := none
  completeness : Option Int := none
  relevance : Option Int := none
  conciseness : Option Int := none
  faithfulness : Option Int := none

/-- `max(1, min(5, n))`. -/
def clamp15 (n : Int) : Int := max 1 (min 5 n)

/-- The `try` block of `_judge_single` (evaluation.py:286-290): provider
call, `safe_json_parse`, `score = int(data.get("score", 1))`,
`reason = data.get("reason", "No reason provided")`. Any exception escapes
to the `except` clause. -/
def judgeTry (providerResp : Except PyExc String) :
    Except PyExc (Int × JSON × JSON) := do
  let content ← providerResp
  let data ← safe_json_parse content
  let scoreVal ←
    match data with
    | .obj kvs => .ok ((dictGet kvs "score").getD (.num 1))
    | _ => .error (.attributeError "no attribute get")
  let score ← pyInt scoreVal
  let reason ←
    match data with
    | .obj kvs => .ok ((dictGet kvs "reason").getD (.str "No reason provided"))
    | _ => .error (.attributeError "no attribute get")
  .ok (score, reason, data)

/-- The detailed-metric extraction (evaluation.py:303-306) for one metric:
`val = data.get(metric); if val is not None: max(1, min(5, int(val)))`.
This runs outside the `try/except`, so `int(val)` can raise. -/
def extractMetric (data : JSON) (metric : String) : Except PyExc (Option Int) :=
  match data with
  | .obj kvs =>
    match dictGet kvs metric with
    | none => .ok none
    | some .null => .ok none
    | some v => (pyInt v).map (fun n => some (clamp15 n))
  | _ => .error (.attributeError "no attribute get")

/-- `_judge_single` (evaluation.py:257-317): judge one QA pair. The
`except` clause degrades any `try`-block failure to score 1 with a
diagnostic reason and `data = {}`; the clamp and the `is_correct`
derivation (hard-coded `score >= 4`) follow; in detailed mode the five
dimension extractions run unprotected and their exceptions propagate. -/
def judgeSingle (qa : GoldenQA) (rag_answer : String)
    (providerResp : Except PyExc String) (detailed : Bool) :
    Except PyExc EvaluationResult := do
  let (score, reason, data) :=
    match judgeTry providerResp with
    | .ok t => t
    | .error e => (1, .str ("Evaluation error: " ++ pyExcMsg e), .obj [])
  let score := clamp15 score
  let (c₁, c₂, c₃, c₄, c₅) ←
    if detailed then do
      let c₁ ← extractMetric data "correctness"
      let c₂ ← extractMetric data "completeness"
      let c₃ ← extractMetric data "relevance"
      let c₄ ← extractMetric data "conciseness"
      let c₅ ← extractMetric data "faithfulness"
      pure (c₁, c₂, c₃, c₄, c₅)
    else pure (none, none, none, none, none)
  .ok { id := qa.id
        question := qa.question
        golden_answer := qa.answer
        rag_answer := rag_answer
        score := score
        reason := reason
        is_correct := decide (score ≥ 4)
        correctness := c₁
        completeness := c₂
        relevance := c₃
        conciseness := c₄
        faithfulness := c₅ }

/-- `process_qa` (evaluation.py:352-363): query the endpoint, absorbing any
exception into a `"[ERROR: ...]"` answer string, then judge. -/
def process_qa (qa : GoldenQA) (clientResp : Except PyExc String)
    (providerResp : Except PyExc String) (detailed : Bool) :
    Except PyExc EvaluationResult :=
  let rag_answer :=
    match clientResp with
    | .ok a => a
    | .error e => "[ERROR: " ++ pyExcMsg e ++ "]"
  judgeSingle qa rag_answer providerResp detailed

/-- Modelled from the spec: `evaluate_rag` gathers the per-item tasks with
`get_async_pbar().gather(*tasks)` from the repository's `ui` module, whose
source is not available here. Per §4.5 the orchestrator fans out all items
and aggregates their results; with `asyncio.gather` semantics the
collected list is in task order and an exception escaping any task
propagates to the caller. -/
def gatherResults {α : Type} : List (Except PyExc α) → Except PyExc (List α)
  | [] => .ok []
  | e :: es => do
    let r ← e
    let rs ← gatherResults es
    .ok (r :: rs)

/-- The batch summary (`EvaluationSummary`, evaluation.py:62-71). -/
structure EvaluationSummary where
  total : Nat
  correct : Nat
  incorrect : Nat
  accuracy : ℚ
  avg_score : ℚ
  results : List EvaluationResult

/-- `evaluate_rag` (evaluation.py:320-383): run every item's
query-then-judge pipeline, then aggregate. Each item carries its endpoint
client behaviour and its judge provider behaviour. The `correct_threshold`
parameter is accepted (and documented) by the source but never used. -/
def evaluate_rag (items : List (GoldenQA × Except PyExc String × Except PyExc String))
    (correct_threshold : Int := 4) (detailed : Bool := false) :
    Except PyExc EvaluationSummary := do
  let results ← gatherResults
    (items.map (fun it => process_qa it.1 it.2.1 it.2.2 detailed))
  let total := results.length
  let correct := (results.filter (fun r => r.is_correct)).length
  let incorrect := total - correct
  let avg_score : ℚ :=
    if total > 0 then ((results.map (fun r => r.score)).sum : ℚ) / (total : ℚ) else 0
  let accuracy : ℚ := if total > 0 then (correct : ℚ) / (total : ℚ) else 0
  .ok { total := total
        correct := correct
        incorrect := incorrect
        accuracy := accuracy
        avg_score := avg_score
        results := results }

/-! ## Advanced metrics (`src/ragscore/advanced_evaluator.py`)

The three LLM calls (basic scores, hallucination detection, citation
quality) are collaborators whose behaviours are `Except PyExc String`
values carrying the returned message content. Free-text fields
(`reasoning`, `hallucination_details`, `citation_analysis`, and the
latency description string) are presentation only and are not modelled. -/

/-- `LatencyScorer` with its constructor defaults (500/2000/5000 ms). -/
structure LatencyScorer where
  excellent : ℚ := 500
  good : ℚ := 2000
  acceptable : ℚ := 5000

/-- `LatencyScorer.score` (advanced_evaluator.py:297-320): the closed-form
`(score, is_slow)` (the human-readable description is omitted). The three
interpolating branches go through Python's `int(...)` truncation. -/
def LatencyScorer.score (cfg : LatencyScorer) (latency_ms : ℚ) : Int × Bool :=
  if latency_ms ≤ cfg.excellent then (100, false)
  else if latency_ms ≤ cfg.good then
    (ratTrunc (100 - ((latency_ms - cfg.excellent) / (cfg.good - cfg.excellent)) * 20), false)
  else if latency_ms ≤ cfg.acceptable then
    (ratTrunc (80 - ((latency_ms - cfg.good) / (cfg.acceptable - cfg.good)) * 20), false)
  else
    (ratTrunc (max 0 (60 - ((latency_ms - cfg.acceptable) / 1000) * 10)), true)

/-- Search for `\[\d+\]`: a bracket, at least one digit, a closing
bracket. -/
def scanBracketNum : List Char → Bool
  | [] => false
  | '[' :: rest =>
    if rest.takeWhile (·.isDigit) ≠ [] ∧ (rest.dropWhile (·.isDigit)).head? = some ']' then
      true
    else scanBracketNum rest
  | _ :: rest => scanBracketNum rest

/-- Search for `\(\d+\)`. -/
def scanParenNum : List Char → Bool
  | [] => false
  | '(' :: rest =>
    if rest.takeWhile (·.isDigit) ≠ [] ∧ (rest.dropWhile (·.isDigit)).head? = some ')' then
      true
    else scanParenNum rest
  | _ :: rest => scanParenNum rest

/-- Search for `\[.*?\]`: a bracket closed later on the same line
(`.` does not match a newline). -/
def scanBracketAny : List Char → Bool
  | [] => false
  | '[' :: rest =>
    if (rest.takeWhile (fun c => c ≠ '\n')).contains ']' then true
    else scanBracketAny rest
  | _ :: rest => scanBracketAny rest

/-- Whether the first list is a prefix of the second. -/
def startsWithSeq : List Char → List Char → Bool
  | [], _ => true
  | _ :: _, [] => false
  | n :: ns, h :: hs => n = h && startsWithSeq ns hs

/-- Whether the first list occurs as a contiguous run in the second. -/
def containsSeq (needle : List Char) : List Char → Bool
  | [] => needle.isEmpty
  | h :: hs => startsWithSeq needle (h :: hs) || containsSeq needle hs

/-- `CitationQualityEvaluator.has_citations`
(advanced_evaluator.py:163-181): any of the fixed citation patterns,
case-insensitively. -/
def has_citations (response : String) : Bool :=
  let cs := response.toList
  let low := cs.map Char.toLower
  scanBracketNum cs || scanParenNum cs || scanBracketAny cs ||
    containsSeq "according to".toList low ||
    containsSeq "as stated in".toList low ||
    containsSeq "source:".toList low ||
    containsSeq "reference:".toList low ||
    containsSeq "from the document".toList low ||
    containsSeq "the text states".toList low

/-- `HallucinationDetector.detect` (advanced_evaluator.py:59-152), as
`(hallucination_score, has_hallucinations)`: empty-response short circuit
to `(0, true)`; otherwise decode and clamp, with the `except` fallback
`(50, false)`. -/
def detect (response : String) (provider : Except PyExc String) : Int × Bool :=
  if response = "" ∨ pyStrip response = "" then (0, true)
  else
    match (do
      let content ← provider
      let j ← json_loads content
      match j with
      | .obj kvs =>
        let s ← pyInt ((dictGet kvs "hallucination_score").getD (.num 50))
        let flag := truthy ((dictGet kvs "has_hallucinations").getD (.bool false))
        .ok (max 0 (min 100 s), flag)
      | _ => .error (.typeError "object does not support item assignment")
      : Except PyExc (Int × Bool)) with
    | .ok r => r
    | .error _ => (50, false)

/-- `CitationQualityEvaluator.evaluate` (advanced_evaluator.py:183-273), as
`(citation_quality_score, has_citations)`: the `has_citations` heuristic
runs first; empty responses score `(0, false)`; the `except` fallback is
`(50 if has_cites else 0, has_cites)`. -/
def citationEvaluate (response : String) (provider : Except PyExc String) : Int × Bool :=
  let has_cites := has_citations response
  if response = "" ∨ pyStrip response = "" then (0, false)
  else
    match (do
      let content ← provider
      let j ← json_loads content
      match j with
      | .obj kvs =>
        let s ← pyInt ((dictGet kvs "citation_quality_score").getD (.num 50))
        let flag := truthy ((dictGet kvs "has_citations").getD (.bool has_cites))
        .ok (max 0 (min 100 s), flag)
      | _ => .error (.typeError "object does not support item assignment")
      : Except PyExc (Int × Bool)) with
    | .ok r => r
    | .error _ => ((if has_cites then 50 else 0), has_cites)

/-- The three basic scores of `AdvancedEvaluator._get_basic_scores`. -/
structure BasicScores where
  accuracy_score : Int
  relevance_score : Int
  completeness_score : Int

/-- `AdvancedEvaluator._get_basic_scores`
(advanced_evaluator.py:368-431): decode and clamp the three scores, with
the `except` fallback of 50 each. -/
def getBasicScores (provider : Except PyExc String) : BasicScores :=
  match (do
    let content ← provider
    let j ← json_loads content
    match j with
    | .obj kvs =>
      let a ← pyInt ((dictGet kvs "accuracy_score").getD (.num 50))
      let r ← pyInt ((dictGet kvs "relevance_score").getD (.num 50))
      let c ← pyInt ((dictGet kvs "completeness_score").getD (.num 50))
      .ok (⟨max 0 (min 100 a), max 0 (min 100 r), max 0 (min 100 c)⟩ : BasicScores)
    | _ => .error (.typeError "object does not support item assignment")
    : Except PyExc BasicScores) with
  | .ok r => r
  | .error _ => ⟨50, 50, 50⟩

/-- The default composite weights of `AdvancedEvaluator.__init__`
(advanced_evaluator.py:357-364): accuracy 0.25, relevance 0.20,
completeness 0.20, hallucination 0.20, citation 0.10, latency 0.05. -/
def defaultWeights : List (String × ℚ) :=
  [("accuracy", mkRat 25 100), ("relevance", mkRat 20 100),
   ("completeness", mkRat 20 100), ("hallucination", mkRat 20 100),
   ("citation", mkRat 10 100), ("latency", mkRat 5 100)]

/-- `self.weights = weights or {...}`: a missing or empty dict falls back
to the defaults. -/
def mkWeights (weights : Option (List (String × ℚ))) : List (String × ℚ) :=
  match weights with
  | some w => if w ≠ [] then w else defaultWeights
  | none => defaultWeights

/-- Python `d[k]` on the weights dict: `KeyError` when absent. -/
def weightGet (w : List (String × ℚ)) (k : String) : Except PyExc ℚ :=
  match w.foldl (fun acc p => if p.1 = k then some p.2 else acc) none with
  | some q => .ok q
  | none => .error (.keyError k)

/-- `AdvancedEvaluationResult` (advanced_evaluator.py:22-48), without its
free-text fields. -/
structure AdvancedEvaluationResult where
  accuracy_score : Int
  relevance_score : Int
  completeness_score : Int
  hallucination_score : Int
  citation_quality_score : Int
  latency_score : Int
  basic_overall : ℚ
  advanced_overall : ℚ
  latency_ms : ℚ
  has_hallucinations : Bool
  has_citations : Bool
  is_slow : Bool

/-- `AdvancedEvaluator.evaluate` (advanced_evaluator.py:433-518) under the
configuration of `__init__`: sub-evaluators run (or default) as toggled,
and the composite is the weighted sum over the six metrics with the
caller-supplied weights, each read with `self.weights[...]` (left to
right, so a missing key raises `KeyError`). -/
def advEvaluate (weights : Option (List (String × ℚ)))
    (enableHal enableCit enableLat : Bool)
    (target_response : String) (latency_ms : ℚ)
    (basicProv halProv citProv : Except PyExc String) :
    Except PyExc AdvancedEvaluationResult := do
  let w := mkWeights weights
  let basic := getBasicScores basicProv
  let (halScore, halFlag) :=
    if enableHal then detect target_response halProv else (100, false)
  let (citScore, citFlag) :=
    if enableCit then citationEvaluate target_response citProv else (50, false)
  let (latencyScore, is_slow) :=
    if enableLat then LatencyScorer.score {} latency_ms else (100, false)
  let basic_overall : ℚ :=
    ((basic.accuracy_score : ℚ) + (basic.relevance_score : ℚ)
      + (basic.completeness_score : ℚ)) / 3
  let wa ← weightGet w "accuracy"
  let wr ← weightGet w "relevance"
  let wc ← weightGet w "completeness"
  let wh ← weightGet w "hallucination"
  let wci ← weightGet w "citation"
  let wl ← weightGet w "latency"
  let advanced_overall : ℚ :=
    wa * (basic.accuracy_score : ℚ) + wr * (basic.relevance_score : ℚ)
      + wc * (basic.completeness_score : ℚ) + wh * (halScore : ℚ)
      + wci * (citScore : ℚ) + wl * (latencyScore : ℚ)
  .ok { accuracy_score := basic.accuracy_score
        relevance_score := basic.relevance_score
        completeness_score := basic.completeness_score
        hallucination_score := halScore
        citation_quality_score := citScore
        latency_score := latencyScore
        basic_overall := basic_overall
        advanced_overall := advanced_overall
        latency_ms := latency_ms
        has_hallucinations := halFlag
        has_citations := citFlag
        is_slow := is_slow }

/-! ## Projections used by the theorems -/

/-- The successful value of an `Except`, when any. -/
def exceptOk? {α : Type} : Except PyExc α → Option α
  | .ok a => some a
  | .error _ => none

/-- Whether a decoded JSON value is a mapping (a JSON object). -/
def isMapping : JSON → Bool
  | .obj _ => true
  | _ => false

/-- The advanced composite equals the weighted sum of the record's own six
metric scores — trivially true on the error outcome, where no record is
produced. -/
def compositeEq (wa wr wc wh wci wl : ℚ) :
    Except PyExc AdvancedEvaluationResult → Prop
  | .ok r =>
    r.advanced_overall
      = wa * (r.accuracy_score : ℚ) + wr * (r.relevance_score : ℚ)
        + wc * (r.completeness_score : ℚ) + wh * (r.hallucination_score : ℚ)
        + wci * (r.citation_quality_score : ℚ) + wl * (r.latency_score : ℚ)
  | .error _ => True

/-! # Theorems

General lemmas first, then one theorem per specified property (with its
witness or counterexample where applicable). -/

/-- `json_loads` fails only with a `JSONDecodeError`. -/
theorem json_loads_error_is_decode (s : String) :
    (∃ v, json_loads s = .ok v) ∨ ∃ m, json_loads s = .error (.jsonDecodeError m) := by
  unfold json_loads
  cases parseValue (s.length + 1) s.toList with
  | none => exact Or.inr ⟨_, rfl⟩
  | some p =>
    by_cases h : skipWs p.2 = []
    · exact Or.inl ⟨p.1, by simp [h]⟩
    · exact Or.inr ⟨"Extra data", by simp [h]⟩

theorem dictGet_nil (k : String) : dictGet [] k = none := rfl

theorem optTruthy_none : optTruthy none = false := rfl

theorem optTruthy_some (v : JSON) : optTruthy (some v) = truthy v := rfl

theorem isNonBlankStr_false_of_falsy {c : Option JSON} (h : optTruthy c = false) :
    isNonBlankStr c = false := by
  cases c with
  | none => rfl
  | some v =>
    cases v with
    | str s =>
      simp only [optTruthy, truthy] at h
      simp only [decide_eq_false_iff_not, Decidable.not_not] at h
      subst h
      rfl
    | null => rfl
    | bool b => rfl
    | num q => rfl
    | arr es => rfl
    | obj fs => rfl

theorem find?_nonblank_append {l₁ l₂ : List (Option JSON)}
    (h : l₁.any optTruthy = false) :
    (l₁ ++ l₂).find? isNonBlankStr = l₂.find? isNonBlankStr := by
  induction l₁ with
  | nil => simp
  | cons c t ih =>
    simp only [List.any_cons, Bool.or_eq_false_iff] at h
    simp only [List.cons_append, List.find?_cons, isNonBlankStr_false_of_falsy h.1]
    exact ih h.2

theorem firstNonBlankStr_append {l₁ l₂ : List (Option JSON)}
    (h : l₁.any optTruthy = false) :
    firstNonBlankStr (l₁ ++ l₂) = firstNonBlankStr l₂ := by
  unfold firstNonBlankStr
  rw [find?_nonblank_append h]

theorem firstNonBlankStr_of_falsy {l : List (Option JSON)}
    (h : l.any optTruthy = false) : firstNonBlankStr l = "" := by
  have h2 : firstNonBlankStr (l ++ ([] : List (Option JSON))) = firstNonBlankStr [] :=
    firstNonBlankStr_append h
  simpa using h2

theorem firstNonBlankStr_nil : firstNonBlankStr [] = "" := rfl

theorem dataStep_any (kvs : List (String × JSON)) (L : List (Option JSON)) :
    (dataStep kvs L).any optTruthy
      = (L.any optTruthy || (tierData kvs).any optTruthy) := by
  unfold dataStep tierData
  cases hd : dictGet kvs "data" with
  | none => simp [dictGet_nil, optTruthy_none, optTruthy_some, truthy]
  | some v =>
    cases v with
    | obj dkvs =>
      cases dkvs with
      | nil => simp [dictGet_nil, optTruthy_none, optTruthy_some, truthy]
      | cons p t => simp [truthy]
    | null => simp [dictGet_nil, optTruthy_none, optTruthy_some, truthy]
    | bool b => cases b <;> simp [dictGet_nil, optTruthy_none, optTruthy_some, truthy]
    | num q =>
      by_cases hq : q = 0 <;> simp [dictGet_nil, optTruthy_none, optTruthy_some, truthy, hq]
    | str s =>
      by_cases hs : s = "" <;> simp [dictGet_nil, optTruthy_none, optTruthy_some, truthy, hs]
    | arr es => cases es <;> simp [dictGet_nil, optTruthy_none, optTruthy_some, truthy]

theorem dataStep_firstNonBlank {kvs : List (String × JSON)}
    {L : List (Option JSON)} (h : L.any optTruthy = false) :
    firstNonBlankStr (dataStep kvs L) = firstNonBlankStr (tierData kvs) := by
  have hnones : firstNonBlankStr (L ++ [none, none, none]) = "" := by
    apply firstNonBlankStr_of_falsy
    simp [h, optTruthy_none]
  unfold dataStep tierData
  cases hd : dictGet kvs "data" with
  | none =>
    simpa [dictGet_nil, firstNonBlankStr_nil] using hnones
  | some v =>
    cases v with
    | obj dkvs =>
      cases dkvs with
      | nil => simpa [truthy, dictGet_nil, firstNonBlankStr_nil] using hnones
      | cons p t => simp [truthy, firstNonBlankStr_append h]
    | null => simpa [truthy, dictGet_nil, firstNonBlankStr_nil] using hnones
    | bool b =>
      cases b <;>
        simp [truthy, dictGet_nil, firstNonBlankStr_nil, firstNonBlankStr_of_falsy h, hnones]
    | num q =>
      by_cases hq : q = 0 <;>
        simp [truthy, hq, dictGet_nil, firstNonBlankStr_nil, firstNonBlankStr_of_falsy h, hnones]
    | str s =>
      by_cases hs : s = "" <;>
        simp [truthy, hs, dictGet_nil, firstNonBlankStr_nil, firstNonBlankStr_of_falsy h, hnones]
    | arr es =>
      cases es <;>
        simp [truthy, dictGet_nil, firstNonBlankStr_nil, firstNonBlankStr_of_falsy h, hnones]

theorem choicesStep_map_eq {kvs : List (String × JSON)}
    {cand : List (Option JSON)} (h : cand.any optTruthy = false) :
    (choicesStep kvs cand).map firstNonBlankStr
      = (tierChoices kvs).map firstNonBlankStr := by
  have hfb := firstNonBlankStr_of_falsy h
  unfold choicesStep tierChoices
  cases hc : dictGet kvs "choices" with
  | none =>
    by_cases ho : dictHas kvs "output_text" <;>
      simp [ho, Except.map, firstNonBlankStr_append h, hfb, firstNonBlankStr_nil]
  | some v =>
    cases v with
    | arr es =>
      cases es with
      | nil =>
        by_cases ho : dictHas kvs "output_text" <;>
          simp [ho, Except.map, firstNonBlankStr_append h, hfb, firstNonBlankStr_nil]
      | cons c0 rest =>
        cases c0 with
        | obj ckvs =>
          cases hm : dictGet ckvs "message" with
          | none => simp [hm, Except.map, firstNonBlankStr_append h]
          | some mv =>
            cases mv with
            | obj mkvs =>
              cases mkvs with
              | nil => simp [hm, truthy, Except.map, firstNonBlankStr_append h]
              | cons q t => simp [hm, truthy, Except.map, firstNonBlankStr_append h]
            | null => simp [hm, truthy, Except.map, firstNonBlankStr_append h]
            | bool b => cases b <;> simp [hm, truthy, Except.map, firstNonBlankStr_append h]
            | num q =>
              by_cases hq : q = 0 <;>
                simp [hm, truthy, hq, Except.map, firstNonBlankStr_append h]
            | str s =>
              by_cases hs : s = "" <;>
                simp [hm, truthy, hs, Except.map, firstNonBlankStr_append h]
            | arr es2 => cases es2 <;> simp [hm, truthy, Except.map, firstNonBlankStr_append h]
        | null => simp
        | bool b => simp
        | num q => simp
        | str s => simp
        | arr es2 => simp
    | null =>
      by_cases ho : dictHas kvs "output_text" <;>
        simp [ho, Except.map, firstNonBlankStr_append h, hfb, firstNonBlankStr_nil]
    | bool b =>
      by_cases ho : dictHas kvs "output_text" <;>
        simp [ho, Except.map, firstNonBlankStr_append h, hfb, firstNonBlankStr_nil]
    | num q =>
      by_cases ho : dictHas kvs "output_text" <;>
        simp [ho, Except.map, firstNonBlankStr_append h, hfb, firstNonBlankStr_nil]
    | str s =>
      by_cases ho : dictHas kvs "output_text" <;>
        simp [ho, Except.map, firstNonBlankStr_append h, hfb, firstNonBlankStr_nil]
    | obj fs =>
      by_cases ho : dictHas kvs "output_text" <;>
        simp [ho, Except.map, firstNonBlankStr_append h, hfb, firstNonBlankStr_nil]

/-- C3 (counterexample): `safe_json_parse` does not always return a
mapping. On the input `"5"` — a valid non-object JSON document — it
returns (without raising) the number 5, which is not a mapping, refuting
"it returns a mapping (possibly empty)". -/
theorem safe_json_parse_not_mapping_cex :
    (exceptOk? (safe_json_parse "5")).map isMapping = some false := rfl

/-- C3 (amended): `safe_json_parse` is total — for every input string,
including the empty string and arbitrarily malformed JSON, it returns a
value and never raises; the empty string yields the empty mapping; and an
input whose cleaned/bracket-completed form decodes yields that decoded
JSON value — which is a mapping when the document is a JSON object, but is
a non-mapping value (number, string, array, ...) for valid non-object
JSON. -/
theorem safe_json_parse_amended (raw : String) :
    (∃ v, safe_json_parse raw = .ok v) ∧
    (raw = "" → safe_json_parse raw = .ok (.obj [])) ∧
    (∀ v, raw ≠ "" → json_loads (completeBrackets (cleanControl raw)) = .ok v →
      safe_json_parse raw = .ok v) := by
  refine ⟨?_, ?_, ?_⟩
  · unfold safe_json_parse
    by_cases hr : raw = ""
    · exact ⟨.obj [], by simp [hr]⟩
    · simp only [hr, if_false]
      rcases json_loads_error_is_decode (completeBrackets (cleanControl raw)) with
        ⟨v, hv⟩ | ⟨m, hm⟩
      · exact ⟨v, by simp [hv]⟩
      · rcases json_loads_error_is_decode
            (fixInnerQuotes (completeBrackets (cleanControl raw))) with
          ⟨v₂, hv₂⟩ | ⟨m₂, hm₂⟩
        · exact ⟨v₂, by simp [hm, hv₂]⟩
        · rcases json_loads_error_is_decode
              (repairCommas (completeBrackets (cleanControl raw))) with
            ⟨v₃, hv₃⟩ | ⟨m₃, hm₃⟩
          · exact ⟨v₃, by simp [hm, hm₂, hv₃]⟩
          · exact ⟨.obj [], by simp [hm, hm₂, hm₃]⟩
  · intro hr
    simp [safe_json_parse, hr]
  · intro v hr hv
    simp [safe_json_parse, hr, hv]

/-- C3 witness: the amended statement evaluated at the concrete input
`"5"`, whose decode succeeds with the (non-mapping) number 5. -/
theorem safe_json_parse_amended_witness :
    ("5" ≠ "" ∧ json_loads (completeBrackets (cleanControl "5")) = .ok (.num 5)) ∧
    safe_json_parse "5" = .ok (.num 5) :=
  ⟨⟨by decide, rfl⟩, (safe_json_parse_amended "5").2.2 (.num 5) (by decide) rfl⟩

/-- C9 (counterexample): the claimed resolution order says a `msg` field
nested under `data` is a candidate, so on
`{"data": {"msg": "hello"}}` the extracted answer would be `"hello"`;
the code's nested tier probes only `answer/response/result` and extracts
`""`. -/
theorem parse_answer_nested_msg_cex :
    parse_answer (.obj [("data", .obj [("msg", .str "hello")])]) = .ok ""
    ∧ parse_answer_claimed (.obj [("data", .obj [("msg", .str "hello")])]) = "hello"
    ∧ ("hello" : String) ≠ "" :=
  ⟨rfl, rfl, by decide⟩

/-- C9 (amended): answer extraction is strictly tiered — top-level
`answer/response/result/msg`; then, only when all earlier candidates are
falsy, `answer/response/result` (not `msg`) under a truthy `data` object;
then, again only when all earlier candidates are falsy,
`choices[0].message.content` when `choices` is a nonempty list (raising
`AttributeError` on a non-dict `choices[0]`/`message`), or else a
top-level `output_text` field — and the extracted answer is the first
candidate that is a string with non-whitespace content, or `""` when none
matches. -/
theorem parse_answer_eq_tiered (j : JSON) : parse_answer j = parse_answer_tiered j := by
  cases j with
  | obj kvs =>
    unfold parse_answer parse_answer_tiered
    simp only [tierTop]
    by_cases h1 : List.any [dictGet kvs "answer", dictGet kvs "response",
        dictGet kvs "result", dictGet kvs "msg"] optTruthy
    · simp [h1, Except.map]
    · rw [Bool.not_eq_true] at h1
      simp only [h1, Bool.false_eq_true, if_false]
      by_cases h2 : (tierData kvs).any optTruthy
      · rw [dataStep_any kvs _, h1, h2]
        simp only [Bool.false_or, if_true]
        simp [Except.map, dataStep_firstNonBlank h1, h2]
      · rw [Bool.not_eq_true] at h2
        rw [dataStep_any kvs _, h1, h2]
        simp only [Bool.false_or, Bool.false_eq_true, if_false, h2]
        have h3 : (dataStep kvs [dictGet kvs "answer", dictGet kvs "response",
            dictGet kvs "result", dictGet kvs "msg"]).any optTruthy = false := by
          rw [dataStep_any kvs _, h1, h2]
          rfl
        exact choicesStep_map_eq h3
  | null => rfl
  | bool b => rfl
  | num q => rfl
  | str s => rfl
  | arr es => rfl

/-- C4: `RAGEndpointClient.query` is total — every transport outcome
yields a result triple, never an exception — and on each ordinary failure
mode (timeout, HTTP/request error after exhausted retries, empty body,
non-JSON body) it returns `""` with a payload whose `error` field
describes the failure kind, and a nonnegative elapsed time. -/
theorem query_degraded_total (elapsed : ℚ) (h : 0 ≤ elapsed) (m body : String) :
    (∀ o : HttpOutcome, ∃ r : String × JSON × ℚ, query o elapsed = r) ∧
    query .timeout elapsed = ("", .obj [("error", .str "Request timeout")], elapsed) ∧
    query (.requestError m) elapsed
      = ("", .obj [("error", .str ("HTTP error: " ++ m))], elapsed) ∧
    (pyStrip body = "" →
      query (.body body) elapsed
        = ("", .obj [("error", .str "Empty response body")], elapsed)) ∧
    (∀ em, pyStrip body ≠ "" → json_loads body = .error (.jsonDecodeError em) →
      query (.body body) elapsed
        = ("", .obj [("error", .str ("JSON parse error: " ++ em)),
                     ("body_preview", .str (pyTake 500 body))], elapsed)) ∧
    0 ≤ (query .timeout elapsed).2.2 := by
  refine ⟨fun o => ⟨query o elapsed, rfl⟩, rfl, rfl, ?_, ?_, h⟩
  · intro hb
    simp [query, queryInner, hb]
  · intro em hb hj
    have hne : ¬(body = "" ∨ pyStrip body = "") := by
      rintro (rfl | hb2)
      · exact hb rfl
      · exact hb hb2
    simp [query, queryInner, hne, hj]

/-- C4 witness: the theorem applied at elapsed 0, a whitespace-only body
and the non-JSON body `"not json"`. -/
theorem query_degraded_total_witness :
    ((0 : ℚ) ≤ 0 ∧ pyStrip " " = "" ∧ pyStrip "not json" ≠ ""
      ∧ json_loads "not json" = .error (.jsonDecodeError "Expecting value")) ∧
    query .timeout 0 = ("", .obj [("error", .str "Request timeout")], 0) ∧
    query (.body " ") 0 = ("", .obj [("error", .str "Empty response body")], 0) ∧
    query (.body "not json") 0
      = ("", .obj [("error", .str ("JSON parse error: " ++ "Expecting value")),
                   ("body_preview", .str (pyTake 500 "not json"))], 0) := by
  refine ⟨⟨by norm_num, rfl, by decide, rfl⟩, ?_, ?_, ?_⟩
  · exact (query_degraded_total 0 (by norm_num) "" "").2.1
  · exact (query_degraded_total 0 (by norm_num) "" " ").2.2.2.1 rfl
  · exact (query_degraded_total 0 (by norm_num) "" "not json").2.2.2.2.1
      "Expecting value" (by decide) rfl

/-- C5: when the endpoint call times out, `assess_single` produces a
record with an empty target response, scores `0/0/0`, overall score `0`
(below every correctness band, so the record is not correct), the
`"Request timeout"` error, and a nonnegative response time — all without
any LLM call (the flag is `false` and the record is the same for every
provider behaviour) — and `run_assessment` still yields one record per
input item. -/
theorem assess_single_timeout_degraded (qa : QAPair) (elapsed : ℚ)
    (provider : Except PyExc String) (h : 0 ≤ elapsed) :
    (assess_single qa .timeout elapsed provider).1.target_response = "" ∧
    (assess_single qa .timeout elapsed provider).1.accuracy_score = 0 ∧
    (assess_single qa .timeout elapsed provider).1.relevance_score = 0 ∧
    (assess_single qa .timeout elapsed provider).1.completeness_score = 0 ∧
    (assess_single qa .timeout elapsed provider).1.overall_score = 0 ∧
    (assess_single qa .timeout elapsed provider).1.overall_score < 60 ∧
    (assess_single qa .timeout elapsed provider).1.error
      = some (.str "Request timeout") ∧
    (assess_single qa .timeout elapsed provider).1.evaluation_reasoning
      = .str "Request timeout" ∧
    (assess_single qa .timeout elapsed provider).2 = false ∧
    (assess_single qa .timeout elapsed provider).1.response_time_ms = elapsed ∧
    0 ≤ (assess_single qa .timeout elapsed provider).1.response_time_ms ∧
    (∀ items : List (QAPair × HttpOutcome × ℚ × Except PyExc String),
      (run_assessment items).length = items.length) := by
  have hq : query .timeout elapsed
      = ("", .obj [("error", .str "Request timeout")], elapsed) := rfl
  refine ⟨rfl, rfl, rfl, rfl, by norm_num [assess_single, hq], ?_, rfl, rfl, rfl, rfl, h, ?_⟩
  · have : (assess_single qa .timeout elapsed provider).1.overall_score = 0 := by
      norm_num [assess_single, hq]
    rw [this]
    norm_num
  · intro items
    simp [run_assessment]

/-- C5 witness: the theorem applied at a concrete QA pair, elapsed 0 and a
provider that would return a perfect score if it were consulted. -/
theorem assess_single_timeout_degraded_witness :
    ((0 : ℚ) ≤ 0) ∧
    (assess_single ⟨"q1", "What is the capital of France?", "Paris"⟩ .timeout 0
        (.ok "\x7b\"accuracy_score\": 100\x7d")).1.target_response = "" ∧
    (assess_single ⟨"q1", "What is the capital of France?", "Paris"⟩ .timeout 0
        (.ok "\x7b\"accuracy_score\": 100\x7d")).1.overall_score = 0 ∧
    (assess_single ⟨"q1", "What is the capital of France?", "Paris"⟩ .timeout 0
        (.ok "\x7b\"accuracy_score\": 100\x7d")).2 = false := by
  have hthm := assess_single_timeout_degraded
    ⟨"q1", "What is the capital of France?", "Paris"⟩ 0
    (.ok "\x7b\"accuracy_score\": 100\x7d") (by norm_num)
  exact ⟨by norm_num, hthm.1, hthm.2.2.2.2.1, hthm.2.2.2.2.2.2.2.2.1⟩

/-- C10: `LLMEvaluator.evaluate` short-circuits degenerate inputs without
calling the completion provider: an empty or whitespace-only target
response yields `0/0/0` with reasoning "Target response is empty", and
otherwise an empty or whitespace-only expected answer yields `50/50/50`
with reasoning "No expected answer provided for comparison" — in both
cases for every provider behaviour, with the provider-called flag false. -/
theorem llmEvaluate_short_circuit (question expected target : String)
    (provider : Except PyExc String) :
    (pyStrip target = "" →
      llmEvaluate question expected target provider
        = (⟨0, 0, 0, .str "Target response is empty"⟩, false)) ∧
    (pyStrip target ≠ "" → pyStrip expected = "" →
      llmEvaluate question expected target provider
        = (⟨50, 50, 50, .str "No expected answer provided for comparison"⟩, false)) := by
  constructor
  · intro ht
    simp [llmEvaluate, ht]
  · intro ht he
    have htne : ¬(target = "" ∨ pyStrip target = "") := by
      rintro (rfl | h2)
      · exact ht rfl
      · exact ht h2
    simp [llmEvaluate, htne, he]

/-- C10 witness: the theorem applied at a whitespace-only target and at a
whitespace-only expected answer, with a provider that would raise. -/
theorem llmEvaluate_short_circuit_witness :
    (pyStrip " " = "" ∧ pyStrip "an answer" ≠ "" ∧ pyStrip "\t" = "") ∧
    llmEvaluate "q" "Paris" " " (.error .timeout)
      = (⟨0, 0, 0, .str "Target response is empty"⟩, false) ∧
    llmEvaluate "q" "\t" "an answer" (.error .timeout)
      = (⟨50, 50, 50, .str "No expected answer provided for comparison"⟩, false) := by
  refine ⟨⟨rfl, by decide, rfl⟩, ?_, ?_⟩
  · exact (llmEvaluate_short_circuit "q" "Paris" " " (.error .timeout)).1 rfl
  · exact (llmEvaluate_short_circuit "q" "\t" "an answer" (.error .timeout)).2
      (by decide) rfl

theorem ratTrunc_intCast (n : ℤ) : ratTrunc (n : ℚ) = n := by
  simp [ratTrunc, Rat.num_intCast, Rat.den_intCast]

/-- C6: `LatencyScorer.score` with the default thresholds 500/2000/5000 ms
is the claimed pure, deterministic closed form: `score(500) = 100`,
`score(2000) = 80`, `score(5000) = 60`, `score(6000) = 50`; `is_slow`
exactly when the latency exceeds 5000; the two stated linear
interpolations (through `int(...)` truncation) between the thresholds; and
`max(0, 60 - (excess_ms/1000)*10)` above the last threshold. -/
theorem latency_score_spec :
    LatencyScorer.score {} 500 = (100, false) ∧
    LatencyScorer.score {} 2000 = (80, false) ∧
    LatencyScorer.score {} 5000 = (60, false) ∧
    LatencyScorer.score {} 6000 = (50, true) ∧
    (∀ l : ℚ, (LatencyScorer.score {} l).2 = true ↔ 5000 < l) ∧
    (∀ l : ℚ, 500 < l → l ≤ 2000 →
      (LatencyScorer.score {} l).1 = ratTrunc (100 - ((l - 500) / 1500) * 20)) ∧
    (∀ l : ℚ, 2000 < l → l ≤ 5000 →
      (LatencyScorer.score {} l).1 = ratTrunc (80 - ((l - 2000) / 3000) * 20)) ∧
    (∀ l : ℚ, 5000 < l →
      (LatencyScorer.score {} l).1 = ratTrunc (max 0 (60 - ((l - 5000) / 1000) * 10))) := by
  refine ⟨?_, ?_, ?_, ?_, ?_, ?_, ?_, ?_⟩
  · simp [LatencyScorer.score]
  · simp only [LatencyScorer.score]
    rw [if_neg (by norm_num), if_pos (by norm_num : (2000 : ℚ) ≤ 2000)]
    rw [show ((100 : ℚ) - ((2000 - 500) / (2000 - 500)) * 20) = 80 by norm_num]
    decide
  · simp only [LatencyScorer.score]
    rw [if_neg (by norm_num), if_neg (by norm_num),
      if_pos (by norm_num : (5000 : ℚ) ≤ 5000)]
    rw [show ((80 : ℚ) - ((5000 - 2000) / (5000 - 2000)) * 20) = 60 by norm_num]
    decide
  · simp only [LatencyScorer.score]
    rw [if_neg (by norm_num), if_neg (by norm_num), if_neg (by norm_num)]
    rw [show (max 0 ((60 : ℚ) - ((6000 - 5000) / 1000) * 10)) = 50 by norm_num]
    decide
  · intro l
    simp only [LatencyScorer.score]
    split_ifs with h1 h2 h3
    · simp
      exact le_trans h1 (by norm_num)
    · simp
      exact le_trans h2 (by norm_num)
    · simp
      exact h3
    · simp
      exact lt_of_not_le h3
  · intro l h1 h2
    simp only [LatencyScorer.score]
    rw [if_neg (not_le.mpr h1), if_pos h2]
    norm_num
  · intro l h1 h2
    simp only [LatencyScorer.score]
    rw [if_neg (not_le.mpr (lt_trans (by norm_num) h1)), if_neg (not_le.mpr h1),
      if_pos h2]
    norm_num
  · intro l h1
    simp only [LatencyScorer.score]
    rw [if_neg (not_le.mpr (lt_trans (by norm_num) h1)),
      if_neg (not_le.mpr (lt_trans (by norm_num) h1)), if_neg (not_le.mpr h1)]

/-- C6 witness: the theorem's interval statements instantiated at
latencies 1000, 3000 and 7000 ms. -/
theorem latency_score_spec_witness :
    ((500 : ℚ) < 1000 ∧ (1000 : ℚ) ≤ 2000 ∧ (2000 : ℚ) < 3000 ∧ (3000 : ℚ) ≤ 5000
      ∧ (5000 : ℚ) < 7000) ∧
    (LatencyScorer.score {} 1000).1 = ratTrunc (100 - ((1000 - 500) / 1500) * 20) ∧
    (LatencyScorer.score {} 3000).1 = ratTrunc (80 - ((3000 - 2000) / 3000) * 20) ∧
    (LatencyScorer.score {} 7000).1
      = ratTrunc (max 0 (60 - ((7000 - 5000) / 1000) * 10)) ∧
    ((LatencyScorer.score {} 7000).2 = true ↔ (5000 : ℚ) < 7000) := by
  refine ⟨⟨by norm_num, by norm_num, by norm_num, by norm_num, by norm_num⟩, ?_, ?_, ?_, ?_⟩
  · exact latency_score_spec.2.2.2.2.2.1 1000 (by norm_num) (by norm_num)
  · exact latency_score_spec.2.2.2.2.2.2.1 3000 (by norm_num) (by norm_num)
  · exact latency_score_spec.2.2.2.2.2.2.2 7000 (by norm_num)
  · exact latency_score_spec.2.2.2.2.1 7000

/-- C1 (the failing input evaluated): with `detailed = True` and a judge
provider returning the well-formed JSON
`{"score": 3, "reason": "ok", "correctness": "high"}`, the dimension
extraction `int(val)` at evaluation.py:306 — which runs outside
`_judge_single`'s `try/except` — raises `ValueError`, and `evaluate_rag`
propagates it instead of yielding one record per item; the same single-item
batch in non-detailed mode yields `total = 1` as the claim demands. -/
theorem evaluate_rag_detailed_raises :
    evaluate_rag
      [(⟨"q1", "What is the capital of France?", "Paris"⟩,
        .ok "Paris is the capital of France.",
        .ok "\x7b\"score\": 3, \"reason\": \"ok\", \"correctness\": \"high\"\x7d")]
      4 true
      = .error (.valueError "invalid literal for int() with base 10: high") ∧
    (evaluate_rag
      [(⟨"q1", "What is the capital of France?", "Paris"⟩,
        .ok "Paris is the capital of France.",
        .ok "\x7b\"score\": 3, \"reason\": \"ok\", \"correctness\": \"high\"\x7d")]
      4 false).map (fun s => s.total) = .ok 1 := ⟨rfl, rfl⟩

/-- C2 (the failing input evaluated): calling `evaluate_rag` with
`correct_threshold = 5` on an item the judge scores 4 still yields
`is_correct = true`, because `_judge_single` hard-codes `score >= 4`
(evaluation.py:315) and the documented `correct_threshold` parameter is
never passed on — while the claim demands `is_correct = (4 >= 5) = false`. -/
theorem correct_threshold_ignored :
    (evaluate_rag
      [(⟨"q1", "What is the capital of France?", "Paris"⟩,
        .ok "Paris is the capital of France.",
        .ok "\x7b\"score\": 4, \"reason\": \"good\"\x7d")]
      5 false).map (fun s => s.results.map (fun r => (r.score, r.is_correct)))
      = .ok [(4, true)] ∧
    ¬ ((4 : Int) ≥ 5) := ⟨rfl, by decide⟩

theorem clamp15_bounds (n : Int) : 1 ≤ clamp15 n ∧ clamp15 n ≤ 5 := by
  simp only [clamp15]
  omega

theorem extractMetric_ok_bounds {data : JSON} {m : String} {v : Int}
    (h : extractMetric data m = .ok (some v)) : 1 ≤ v ∧ v ≤ 5 := by
  cases data with
  | obj kvs =>
    simp only [extractMetric] at h
    cases hd : dictGet kvs m with
    | none => rw [hd] at h; simp at h
    | some w =>
      rw [hd] at h
      cases w with
      | null => simp at h
      | num q =>
        cases hp : pyInt (.num q) with
        | ok n =>
          simp [hp, Except.map] at h
          exact h ▸ clamp15_bounds n
        | error e => simp [hp, Except.map] at h
      | str s =>
        cases hp : pyInt (.str s) with
        | ok n =>
          simp [hp, Except.map] at h
          exact h ▸ clamp15_bounds n
        | error e => simp [hp, Except.map] at h
      | bool b =>
        cases hp : pyInt (.bool b) with
        | ok n =>
          simp [hp, Except.map] at h
          exact h ▸ clamp15_bounds n
        | error e => simp [hp, Except.map] at h
      | arr es =>
        cases hp : pyInt (.arr es) with
        | ok n =>
          simp [hp, Except.map] at h
          exact h ▸ clamp15_bounds n
        | error e => simp [hp, Except.map] at h
      | obj fs =>
        cases hp : pyInt (.obj fs) with
        | ok n =>
          simp [hp, Except.map] at h
          exact h ▸ clamp15_bounds n
        | error e => simp [hp, Except.map] at h
  | null => simp [extractMetric] at h
  | bool b => simp [extractMetric] at h
  | num q => simp [extractMetric] at h
  | str s => simp [extractMetric] at h
  | arr es => simp [extractMetric] at h

/-- A present dimension score lies in the declared 1–5 range. -/
def dimOk (o : Option Int) : Prop := ∀ v, o = some v → 1 ≤ v ∧ v ≤ 5

theorem judgeSingle_ok_bounds {qa : GoldenQA} {a : String}
    {p : Except PyExc String} {d : Bool} {r : EvaluationResult}
    (h : judgeSingle qa a p d = .ok r) :
    (1 ≤ r.score ∧ r.score ≤ 5) ∧ dimOk r.correctness ∧ dimOk r.completeness
      ∧ dimOk r.relevance ∧ dimOk r.conciseness ∧ dimOk r.faithfulness := by
  unfold judgeSingle at h
  cases hjt : judgeTry p with
  | ok t =>
    obtain ⟨s0, r0, d0⟩ := t
    simp only [hjt] at h
    cases d with
    | false =>
      simp only [Bool.false_eq_true, if_false, pure, Except.pure, bind, Except.bind] at h
      cases h
      refine ⟨clamp15_bounds s0, ?_, ?_, ?_, ?_, ?_⟩ <;>
        (intro v hv; exact absurd (show (none : Option Int) = some v from hv) (by simp))
    | true =>
      simp only [if_true] at h
      cases h1 : extractMetric d0 "correctness" with
      | error e1 => simp [h1, bind, Except.bind] at h
      | ok c1 =>
        cases h2 : extractMetric d0 "completeness" with
        | error e2 => simp [h1, h2, bind, Except.bind] at h
        | ok c2 =>
          cases h3 : extractMetric d0 "relevance" with
          | error e3 => simp [h1, h2, h3, bind, Except.bind] at h
          | ok c3 =>
            cases h4 : extractMetric d0 "conciseness" with
            | error e4 => simp [h1, h2, h3, h4, bind, Except.bind] at h
            | ok c4 =>
              cases h5 : extractMetric d0 "faithfulness" with
              | error e5 => simp [h1, h2, h3, h4, h5, bind, Except.bind] at h
              | ok c5 =>
                simp only [h1, h2, h3, h4, h5, bind, Except.bind, pure,
                  Except.pure] at h
                cases h
                refine ⟨clamp15_bounds s0, ?_, ?_, ?_, ?_, ?_⟩ <;> intro v hv
                · exact extractMetric_ok_bounds ((show c1 = some v from hv) ▸ h1)
                · exact extractMetric_ok_bounds ((show c2 = some v from hv) ▸ h2)
                · exact extractMetric_ok_bounds ((show c3 = some v from hv) ▸ h3)
                · exact extractMetric_ok_bounds ((show c4 = some v from hv) ▸ h4)
                · exact extractMetric_ok_bounds ((show c5 = some v from hv) ▸ h5)
  | error e =>
    simp only [hjt] at h
    cases d with
    | false =>
      simp only [Bool.false_eq_true, if_false, pure, Except.pure, bind, Except.bind] at h
      cases h
      refine ⟨clamp15_bounds 1, ?_, ?_, ?_, ?_, ?_⟩ <;>
        (intro v hv; exact absurd (show (none : Option Int) = some v from hv) (by simp))
    | true =>
      simp only [if_true] at h
      cases h1 : extractMetric (.obj []) "correctness" with
      | error e1 => simp [h1, bind, Except.bind] at h
      | ok c1 =>
        cases h2 : extractMetric (.obj []) "completeness" with
        | error e2 => simp [h1, h2, bind, Except.bind] at h
        | ok c2 =>
          cases h3 : extractMetric (.obj []) "relevance" with
          | error e3 => simp [h1, h2, h3, bind, Except.bind] at h
          | ok c3 =>
            cases h4 : extractMetric (.obj []) "conciseness" with
            | error e4 => simp [h1, h2, h3, h4, bind, Except.bind] at h
            | ok c4 =>
              cases h5 : extractMetric (.obj []) "faithfulness" with
              | error e5 => simp [h1, h2, h3, h4, h5, bind, Except.bind] at h
              | ok c5 =>
                simp only [h1, h2, h3, h4, h5, bind, Except.bind, pure,
                  Except.pure] at h
                cases h
                refine ⟨clamp15_bounds 1, ?_, ?_, ?_, ?_, ?_⟩ <;> intro v hv
                · exact extractMetric_ok_bounds ((show c1 = some v from hv) ▸ h1)
                · exact extractMetric_ok_bounds ((show c2 = some v from hv) ▸ h2)
                · exact extractMetric_ok_bounds ((show c3 = some v from hv) ▸ h3)
                · exact extractMetric_ok_bounds ((show c4 = some v from hv) ▸ h4)
                · exact extractMetric_ok_bounds ((show c5 = some v from hv) ▸ h5)

theorem gatherResults_ok_mem {α : Type} {es : List (Except PyExc α)} {rs : List α}
    (h : gatherResults es = .ok rs) : ∀ r ∈ rs, ∃ e ∈ es, e = .ok r := by
  induction es generalizing rs with
  | nil =>
    simp only [gatherResults] at h
    cases h
    simp
  | cons e es ih =>
    cases e with
    | error err => simp [gatherResults, bind, Except.bind] at h
    | ok a =>
      cases hg : gatherResults es with
      | error err => simp [gatherResults, hg, bind, Except.bind] at h
      | ok tl =>
        simp only [gatherResults, hg, bind, Except.bind, pure, Except.pure] at h
        cases h
        intro r hr
        rcases List.mem_cons.mp hr with rfl | hr2
        · exact ⟨.ok r, List.mem_cons_self _ _, rfl⟩
        · rcases ih hg r hr2 with ⟨e2, he2, heq⟩
          exact ⟨e2, List.mem_cons_of_mem _ he2, heq⟩

/-- C8: every summary a completed batch produces satisfies the declared
invariants — `accuracy = correct/total ∈ [0, 1]` when `total > 0`; every
record's overall score is clamped into 1–5 and every present dimension
score into 1–5; and an empty batch reports `accuracy = 0` and
`avg_score = 0` rather than dividing by zero. -/
theorem summary_invariants
    (items : List (GoldenQA × Except PyExc String × Except PyExc String))
    (ct : Int) (detailed : Bool) (s : EvaluationSummary)
    (hs : evaluate_rag items ct detailed = .ok s) :
    (s.total ≠ 0 → s.accuracy = (s.correct : ℚ) / (s.total : ℚ)
      ∧ 0 ≤ s.accuracy ∧ s.accuracy ≤ 1) ∧
    (∀ r ∈ s.results,
      (1 ≤ r.score ∧ r.score ≤ 5) ∧ dimOk r.correctness ∧ dimOk r.completeness
        ∧ dimOk r.relevance ∧ dimOk r.conciseness ∧ dimOk r.faithfulness) ∧
    (s.total = 0 → s.accuracy = 0 ∧ s.avg_score = 0) := by
  unfold evaluate_rag at hs
  cases hg : gatherResults
      (items.map fun it => process_qa it.1 it.2.1 it.2.2 detailed) with
  | error e => rw [hg] at hs; simp [bind, Except.bind] at hs
  | ok rs =>
    rw [hg] at hs
    simp only [bind, Except.bind, pure, Except.pure] at hs
    cases hs
    refine ⟨?_, ?_, ?_⟩
    · intro ht
      simp only at ht
      have hpos : 0 < rs.length := Nat.pos_of_ne_zero ht
      have hcle : (rs.filter (fun r => r.is_correct)).length ≤ rs.length :=
        List.length_filter_le _ _
      constructor
      · simp [hpos]
      · constructor
        · simp only [hpos, if_pos, gt_iff_lt]
          positivity
        · simp only [hpos, if_pos, gt_iff_lt]
          rw [div_le_one (by exact_mod_cast hpos)]
          exact_mod_cast hcle
    · intro r hr
      simp only at hr
      rcases gatherResults_ok_mem hg r hr with ⟨e, he, heq⟩
      rcases List.mem_map.mp he with ⟨it, hit, rfl⟩
      unfold process_qa at heq
      exact judgeSingle_ok_bounds heq
    · intro ht
      simp only at ht
      simp [ht]

/-- C8 witness: the theorem applied to the empty batch, whose summary
reports zeros. -/
theorem summary_invariants_witness :
    evaluate_rag [] 4 false = .ok ⟨0, 0, 0, 0, 0, []⟩ ∧
    ((⟨0, 0, 0, 0, 0, []⟩ : EvaluationSummary).accuracy = 0
      ∧ (⟨0, 0, 0, 0, 0, []⟩ : EvaluationSummary).avg_score = 0) :=
  ⟨rfl, (summary_invariants [] 4 false ⟨0, 0, 0, 0, 0, []⟩ rfl).2.2 rfl⟩

theorem latencyScore_5000 : LatencyScorer.score {} 5000 = (60, false) := by
  simp only [LatencyScorer.score]
  rw [if_neg (by norm_num), if_neg (by norm_num), if_pos (by norm_num : (5000 : ℚ) ≤ 5000)]
  rw [show ((80 : ℚ) - ((5000 - 2000) / (5000 - 2000)) * 20) = 60 by norm_num]
  decide

/-- C7 (counterexample): with the claim's own caller-supplied weights
`{accuracy: 0.5, latency: 0.5}` (and accuracy score 80, latency score 60),
`AdvancedEvaluator.evaluate` does not produce the composite 70 — it raises
`KeyError: 'relevance'` at `self.weights["relevance"]`
(advanced_evaluator.py:489), because missing weight keys are not treated
as 0. -/
theorem adv_weights_keyerror_cex :
    advEvaluate (some [("accuracy", mkRat 1 2), ("latency", mkRat 1 2)])
      false false true "a response" 5000
      (.ok "\x7b\"accuracy_score\": 80, \"relevance_score\": 0, \"completeness_score\": 0\x7d")
      (.ok "") (.ok "")
      = .error (.keyError "relevance") := rfl

/-- C7 (amended): the advanced composite equals the unnormalized weighted
sum of the six metric scores with the caller-supplied weights, provided the
weights mapping defines all six keys (a mapping missing any of them makes
evaluation raise `KeyError` instead of treating it as 0); in particular
weights `{accuracy: 0.5, relevance: 0, completeness: 0, hallucination: 0,
citation: 0, latency: 0.5}` with accuracy score 80 and latency score 60
(latency 5000 ms under the default scorer) give composite exactly 70. -/
theorem advanced_overall_weighted :
    (∀ (w : List (String × ℚ)) (eh ec el : Bool) (t : String) (lat : ℚ)
        (bp hp cp : Except PyExc String) (wa wr wc wh wci wl : ℚ),
      weightGet (mkWeights (some w)) "accuracy" = .ok wa →
      weightGet (mkWeights (some w)) "relevance" = .ok wr →
      weightGet (mkWeights (some w)) "completeness" = .ok wc →
      weightGet (mkWeights (some w)) "hallucination" = .ok wh →
      weightGet (mkWeights (some w)) "citation" = .ok wci →
      weightGet (mkWeights (some w)) "latency" = .ok wl →
      compositeEq wa wr wc wh wci wl (advEvaluate (some w) eh ec el t lat bp hp cp)) ∧
    (advEvaluate
      (some [("accuracy", mkRat 1 2), ("relevance", 0), ("completeness", 0),
             ("hallucination", 0), ("citation", 0), ("latency", mkRat 1 2)])
      false false true "a response" 5000
      (.ok "\x7b\"accuracy_score\": 80, \"relevance_score\": 0, \"completeness_score\": 0\x7d")
      (.ok "") (.ok "")).map
        (fun r => (r.accuracy_score, r.latency_score, r.advanced_overall))
      = .ok (80, 60, 70) := by
  constructor
  · intro w eh ec el t lat bp hp cp wa wr wc wh wci wl ha hr hc hh hci hl
    simp only [advEvaluate, ha, hr, hc, hh, hci, hl, bind, Except.bind]
    simp only [compositeEq]
  · have hbasic : getBasicScores
        (.ok "\x7b\"accuracy_score\": 80, \"relevance_score\": 0, \"completeness_score\": 0\x7d")
        = ⟨80, 0, 0⟩ := rfl
    have hw : mkWeights (some [("accuracy", mkRat 1 2), ("relevance", 0), ("completeness", 0),
        ("hallucination", 0), ("citation", 0), ("latency", mkRat 1 2)])
        = [("accuracy", mkRat 1 2), ("relevance", 0), ("completeness", 0),
           ("hallucination", 0), ("citation", 0), ("latency", mkRat 1 2)] := rfl
    have hwa : weightGet [("accuracy", mkRat 1 2), ("relevance", 0), ("completeness", 0),
        ("hallucination", 0), ("citation", 0), ("latency", mkRat 1 2)] "accuracy"
        = .ok (mkRat 1 2) := rfl
    have hwr : weightGet [("accuracy", mkRat 1 2), ("relevance", 0), ("completeness", 0),
        ("hallucination", 0), ("citation", 0), ("latency", mkRat 1 2)] "relevance"
        = .ok 0 := rfl
    have hwc : weightGet [("accuracy", mkRat 1 2), ("relevance", 0), ("completeness", 0),
        ("hallucination", 0), ("citation", 0), ("latency", mkRat 1 2)] "completeness"
        = .ok 0 := rfl
    have hwh : weightGet [("accuracy", mkRat 1 2), ("relevance", 0), ("completeness", 0),
        ("hallucination", 0), ("citation", 0), ("latency", mkRat 1 2)] "hallucination"
        = .ok 0 := rfl
    have hwci : weightGet [("accuracy", mkRat 1 2), ("relevance", 0), ("completeness", 0),
        ("hallucination", 0), ("citation", 0), ("latency", mkRat 1 2)] "citation"
        = .ok 0 := rfl
    have hwl : weightGet [("accuracy", mkRat 1 2), ("relevance", 0), ("completeness", 0),
        ("hallucination", 0), ("citation", 0), ("latency", mkRat 1 2)] "latency"
        = .ok (mkRat 1 2) := rfl
    simp only [advEvaluate, hw, hwa, hwr, hwc, hwh, hwci, hwl, hbasic,
      latencyScore_5000, if_true, Bool.false_eq_true, if_false, bind, Except.bind,
      Except.map]
    norm_num [Rat.mkRat_eq_div]

/-- C7 witness: the amended statement's general part applied at the
all-six-keys weights of the composite-70 scenario. -/
theorem advanced_overall_weighted_witness :
    (weightGet (mkWeights (some [("accuracy", mkRat 1 2), ("relevance", 0),
        ("completeness", 0), ("hallucination", 0), ("citation", 0),
        ("latency", mkRat 1 2)])) "accuracy" = .ok (mkRat 1 2) ∧
      weightGet (mkWeights (some [("accuracy", mkRat 1 2), ("relevance", 0),
        ("completeness", 0), ("hallucination", 0), ("citation", 0),
        ("latency", mkRat 1 2)])) "latency" = .ok (mkRat 1 2)) ∧
    compositeEq (mkRat 1 2) 0 0 0 0 (mkRat 1 2)
      (advEvaluate
        (some [("accuracy", mkRat 1 2), ("relevance", 0), ("completeness", 0),
               ("hallucination", 0), ("citation", 0), ("latency", mkRat 1 2)])
        false false true "a response" 5000
        (.ok "\x7b\"accuracy_score\": 80, \"relevance_score\": 0, \"completeness_score\": 0\x7d")
        (.ok "") (.ok "")) :=
  ⟨⟨rfl, rfl⟩,
    advanced_overall_weighted.1
      [("accuracy", mkRat 1 2), ("relevance", 0), ("completeness", 0),
       ("hallucination", 0), ("citation", 0), ("latency", mkRat 1 2)]
      false false true "a response" 5000
      (.ok "\x7b\"accuracy_score\": 80, \"relevance_score\": 0, \"completeness_score\": 0\x7d")
      (.ok "") (.ok "")
      (mkRat 1 2) 0 0 0 0 (mkRat 1 2) rfl rfl rfl rfl rfl rfl⟩

end RagScore
